import Mathlib

/-
Verification of the tx-engine ledger core (src/account.rs, src/transaction.rs).

Embedding choices:
- Monetary amounts (`f64` in the source) are embedded as exact rationals `ℚ`;
  the spec's floating-point tolerance ε = 1e-9 is subsumed by exact equality.
- `HashMap` is embedded as an association list with first-occurrence lookup,
  insertion replacing in place or appending at the end. Ledger-book equality is
  compared extensionally (by lookup), matching `HashMap` equality semantics.
- Rust panics (`panic!` sites: wrong-client routing, duplicate transaction id
  on insert, non-funding type stored in the retained map) are embedded as a
  distinguished `fault` outcome, disjoint from the recoverable `err` outcome.
- `apply_transaction` takes `&mut self`; the embedding returns the resulting
  account state in both the `ok` and the `err` outcome, so "no mutation on
  error" is a provable property, not an artifact of the embedding.
-/

namespace TxEngine

/-- Modelled from the spec: `ClientId` (src/types.rs is not among the sources)
is an unsigned 16-bit identity; the claims use it only as an identifier, so it
is embedded as `Nat`. -/
abbrev ClientId := Nat

/-- Modelled from the spec: `TransactionId` (src/types.rs is not among the
sources) is an unsigned 32-bit identity, embedded as `Nat`. -/
abbrev TransactionId := Nat

/-- `TransactionType` from src/transaction.rs. -/
inductive TransactionType
  | deposit
  | withdrawal
  | dispute
  | resolve
  | chargeback
deriving DecidableEq, Repr

/-- `Transaction` from src/transaction.rs: type, client, tx, optional amount,
and the mutable `disputed` flag (starts false, skipped by serde). -/
structure Transaction where
  type_ : TransactionType
  client : ClientId
  tx : TransactionId
  amount : Option ℚ
  disputed : Bool
deriving DecidableEq, Repr

/-- `Transaction::amount`: `self.amount.map_or(0.0, |a| a)` — the amount,
defaulting to 0 when absent. -/
def Transaction.amountVal (t : Transaction) : ℚ :=
  t.amount.getD 0

/-- `Transaction::dispute`: sets the disputed flag. -/
def Transaction.dispute (t : Transaction) : Transaction :=
  { t with disputed := true }

/-- `Transaction::resolve`: clears the disputed flag. -/
def Transaction.resolve (t : Transaction) : Transaction :=
  { t with disputed := false }

/-- `TransactionError` from src/transaction.rs (its only variant wraps a csv
error; the payload is abstracted to a message string). -/
inductive TransactionError
  | csv (msg : String)
deriving DecidableEq, Repr

/-- The variants of `AccountError` from src/account.rs that the core can
produce while applying transactions (the `Csv`/`Io` variants belong to the
output path `to_csv` and are not part of the ledger state machine). -/
inductive AccountError
  | withdrawal (client : ClientId) (tx : TransactionId)
  | dispute (client : ClientId) (tx : TransactionId)
  | resolve (client : ClientId) (tx : TransactionId)
  | resolveUndisputed (client : ClientId) (tx : TransactionId)
  | chargeback (client : ClientId) (tx : TransactionId)
  | chargebackUndisputed (client : ClientId) (tx : TransactionId)
  | transaction (e : TransactionError)
deriving DecidableEq, Repr

/-- The business-rule error class: exactly the six variants matched by the
`matches!` in `Accounts::from_transaction_iter`. -/
def AccountError.isBusinessError : AccountError → Bool
  | .withdrawal _ _ => true
  | .dispute _ _ => true
  | .resolve _ _ => true
  | .resolveUndisputed _ _ => true
  | .chargeback _ _ => true
  | .chargebackUndisputed _ _ => true
  | .transaction _ => false

/-- `TransactionMap = HashMap<TransactionId, Transaction>` as an association
list. -/
abbrev TransactionMap := List (TransactionId × Transaction)

/-- `HashMap::get` on the retained-transaction map. -/
def tmGet : TransactionMap → TransactionId → Option Transaction
  | [], _ => none
  | (k, v) :: rest, k' => if k = k' then some v else tmGet rest k'

/-- `HashMap::insert` on the retained-transaction map: returns the previous
value at the key (the clash witness) together with the updated map. -/
def tmInsert (m : TransactionMap) (k : TransactionId) (v : Transaction) :
    Option Transaction × TransactionMap :=
  match tmGet m k with
  | some old => (some old, m.map fun p => if p.1 = k then (k, v) else p)
  | none => (none, m ++ [(k, v)])

/-- `HashMap::get_mut` followed by an in-place update of the stored
transaction, as a whole-map transformation. -/
def tmModify (m : TransactionMap) (k : TransactionId)
    (f : Transaction → Transaction) : TransactionMap :=
  m.map fun p => if p.1 = k then (p.1, f p.2) else p

/-- `Account` from src/account.rs. -/
structure Account where
  client : ClientId
  transactions : TransactionMap
  available : ℚ
  held : ℚ
  total : ℚ
  locked : Bool
deriving DecidableEq, Repr

/-- `Account::new`: fresh account for a client, all balances zero, unlocked,
empty retained map. -/
def Account.new (client : ClientId) : Account :=
  { client := client, transactions := [], available := 0, held := 0, total := 0,
    locked := false }

/-- `Account::freeze`: sets the locked flag. -/
def Account.freeze (a : Account) : Account :=
  { a with locked := true }

/-- Outcome of `Account::apply_transaction`: `ok`/`err` carry the account state
at return time (the source mutates `&mut self`); `fault` embeds a `panic!`. -/
inductive Outcome
  | ok (acc : Account)
  | err (e : AccountError) (acc : Account)
  | fault (msg : String)
deriving DecidableEq, Repr

/-- `Account::apply_transaction` from src/account.rs, translated branch by
branch. The deposit arm of the chargeback branch calls `resolve` on the stored
transaction twice in the source; the second call is a no-op and is embedded as
a single `tmModify`. -/
def Account.apply_transaction (self : Account) (t : Transaction) : Outcome :=
  if t.client ≠ self.client then
    .fault "applied transaction on wrong client"
  else
    match t.type_ with
    | .deposit =>
      let amount := t.amountVal
      let self := { self with available := self.available + amount,
                              total := self.total + amount }
      match tmInsert self.transactions t.tx t with
      | (some _, _) => .fault "multiple transactions with the same id"
      | (none, m) => .ok { self with transactions := m }
    | .withdrawal =>
      let amount := t.amountVal
      if self.available < amount then
        .err (.withdrawal self.client t.tx) self
      else
        let self := { self with available := self.available - amount,
                                total := self.total - amount }
        match tmInsert self.transactions t.tx t with
        | (some _, _) => .fault "multiple transactions with the same id"
        | (none, m) => .ok { self with transactions := m }
    | .dispute =>
      match tmGet self.transactions t.tx with
      | none => .err (.dispute self.client t.tx) self
      | some d =>
        match d.type_ with
        | .deposit =>
          let amount := d.amountVal
          .ok { self with available := self.available - amount,
                          held := self.held + amount,
                          transactions :=
                            tmModify self.transactions t.tx Transaction.dispute }
        | .withdrawal =>
          let amount := d.amountVal
          .ok { self with held := self.held + amount,
                          total := self.total + amount,
                          transactions :=
                            tmModify self.transactions t.tx Transaction.dispute }
        | _ => .fault "deposits and withdrawals are the only transaction types stored"
    | .resolve =>
      match tmGet self.transactions t.tx with
      | none => .err (.resolve self.client t.tx) self
      | some d =>
        if !d.disputed then
          .err (.resolveUndisputed self.client d.tx) self
        else
          match d.type_ with
          | .deposit =>
            let amount := d.amountVal
            .ok { self with available := self.available + amount,
                            held := self.held - amount,
                            transactions :=
                              tmModify self.transactions t.tx Transaction.resolve }
          | .withdrawal =>
            let amount := d.amountVal
            .ok { self with held := self.held - amount,
                            total := self.total - amount,
                            transactions :=
                              tmModify self.transactions t.tx Transaction.resolve }
          | _ => .fault "deposits and withdrawals are the only transaction types stored"
    | .chargeback =>
      match tmGet self.transactions t.tx with
      | none => .err (.chargeback self.client t.tx) self
      | some d =>
        if !d.disputed then
          .err (.chargebackUndisputed self.client d.tx) self
        else
          match d.type_ with
          | .deposit =>
            let amount := d.amountVal
            Outcome.ok (Account.freeze
              { self with held := self.held - amount,
                          total := self.total - amount,
                          transactions :=
                            tmModify self.transactions t.tx Transaction.resolve })
          | .withdrawal =>
            let amount := d.amountVal
            Outcome.ok (Account.freeze
              { self with available := self.available + amount,
                          held := self.held - amount,
                          transactions :=
                            tmModify self.transactions t.tx Transaction.resolve })
          | _ => .fault "deposits and withdrawals are the only transaction types stored"

/-- The ledger book `Accounts(HashMap<ClientId, Account>)` as an association
list. -/
abbrev AccountsMap := List (ClientId × Account)

/-- `HashMap::get` on the ledger book. -/
def accGet : AccountsMap → ClientId → Option Account
  | [], _ => none
  | (c, a) :: rest, c' => if c = c' then some a else accGet rest c'

/-- `HashMap` entry update on the ledger book: replace in place or append. -/
def accInsert : AccountsMap → ClientId → Account → AccountsMap
  | [], c, a => [(c, a)]
  | (c', a') :: rest, c, a =>
    if c' = c then (c, a) :: rest else (c', a') :: accInsert rest c a

/-- Outcome of `Accounts::from_transaction_iter`. -/
inductive BuildOutcome
  | ok (accounts : AccountsMap)
  | err (e : AccountError)
  | fault (msg : String)
deriving DecidableEq, Repr

/-- The `entry(client).or_insert(Account::new(client))` lookup. -/
def entryOrNew (accounts : AccountsMap) (c : ClientId) : Account :=
  (accGet accounts c).getD (Account.new c)

/-- The loop body of `Accounts::from_transaction_iter`, with the accumulated
book explicit: propagate an ingestion error; otherwise apply to the (lazily
created) owning account; on a business-rule error with `strict` false, keep the
book (the entry stays created) and continue; otherwise surface the error. -/
def fromIterGo (accounts : AccountsMap) :
    List (Except TransactionError Transaction) → Bool → BuildOutcome
  | [], _ => .ok accounts
  | .error e :: _, _ => .err (.transaction e)
  | .ok t :: rest, strict =>
    match (entryOrNew accounts t.client).apply_transaction t with
    | .ok a' => fromIterGo (accInsert accounts t.client a') rest strict
    | .err e a' =>
      if !strict && e.isBusinessError then
        fromIterGo (accInsert accounts t.client a') rest strict
      else
        .err e
    | .fault m => .fault m

/-- `Accounts::from_transaction_iter`, starting from the empty (default)
book. -/
def Accounts.from_transaction_iter
    (l : List (Except TransactionError Transaction)) (strict : Bool) :
    BuildOutcome :=
  fromIterGo [] l strict

/-- `DECIMAL_PRECISION` from src/account.rs. -/
def DECIMAL_PRECISION : ℕ := 4

/-- Truncation toward zero on ℚ, the meaning of `f64::trunc`. -/
def ratTrunc (q : ℚ) : ℤ :=
  if 0 ≤ q then ⌊q⌋ else ⌈q⌉

/-- `serialize_f64_to_decimal_precision` from src/account.rs, numeric core:
split into integer part (`trunc`) and fractional part (`fract`), scale the
fraction by 10^4, truncate, scale back, and re-add. -/
def serialize_f64_to_decimal_precision (num : ℚ) : ℚ :=
  let int : ℚ := (ratTrunc num : ℚ)
  let frac : ℚ := num - int
  let frac : ℚ := frac * (10 : ℚ) ^ DECIMAL_PRECISION
  let frac : ℚ := (ratTrunc frac : ℚ)
  let frac : ℚ := frac / (10 : ℚ) ^ DECIMAL_PRECISION
  int + frac

/-- The spec's per-account balance invariant: `total == available + held`. -/
def Account.balanced (a : Account) : Prop :=
  a.total = a.available + a.held

theorem tmGet_tmModify_self (m : TransactionMap) (k : TransactionId)
    (f : Transaction → Transaction) (d : Transaction) (h : tmGet m k = some d) :
    tmGet (tmModify m k f) k = some (f d) := by
  induction m with
  | nil => simp [tmGet] at h
  | cons p rest ih =>
    obtain ⟨k', v⟩ := p
    dsimp only [tmModify, List.map]
    by_cases hk : k' = k
    · rw [if_pos hk]
      simp only [tmGet, if_pos hk] at h ⊢
      injection h with hv
      rw [hv]
    · rw [if_neg hk]
      simp only [tmGet, if_neg hk] at h ⊢
      exact ih h

theorem tmGet_append_new (m : TransactionMap) (k : TransactionId)
    (v : Transaction) (h : tmGet m k = none) :
    tmGet (m ++ [(k, v)]) k = some v := by
  induction m with
  | nil => simp [tmGet]
  | cons p rest ih =>
    obtain ⟨k', v'⟩ := p
    by_cases hk : k' = k
    · subst hk; simp [tmGet] at h
    · simp only [List.cons_append, tmGet, if_neg hk] at h ⊢
      exact ih h

/-- Validate-then-mutate: whenever `apply_transaction` returns a recoverable
error, the account state it hands back is the input state unchanged. -/
theorem apply_err_eq (a : Account) (t : Transaction) (e : AccountError)
    (a' : Account) (h : a.apply_transaction t = .err e a') : a' = a := by
  simp only [Account.apply_transaction] at h
  repeat' split at h
  all_goals first
    | (injection h; done)
    | (injection h with h1 h2; subst h2; rfl)

theorem ratTrunc_of_nonneg (q : ℚ) (h : 0 ≤ q) : ratTrunc q = ⌊q⌋ :=
  if_pos h

theorem ratTrunc_of_nonpos (q : ℚ) (h : q ≤ 0) : ratTrunc q = ⌈q⌉ := by
  unfold ratTrunc
  split
  · have hz : q = 0 := le_antisymm h (by assumption)
    subst hz
    simp
  · rfl

/-- C1. For every account constructed fresh via `Account::new` and mutated only
by `apply_transaction`, after every call of `apply_transaction` that returns
`Ok` the equation `total == available + held` holds (exactly, in the rational
embedding, hence within any tolerance), for every sequence of applied events of
any of the five transaction types: the fresh account is balanced and every
successful application preserves balance. -/
theorem c1_total_invariant :
    (∀ c : ClientId, (Account.new c).balanced) ∧
    (∀ (a : Account) (t : Transaction) (a' : Account),
      a.balanced → a.apply_transaction t = .ok a' → a'.balanced) := by
  constructor
  · intro c
    simp [Account.new, Account.balanced]
  · intro a t a' hb happ
    simp only [Account.apply_transaction] at happ
    repeat' split at happ
    all_goals first
      | (injection happ; done)
      | (injection happ with h1; subst h1;
         simp only [Account.balanced, Account.freeze] at hb ⊢; linarith)

/-- Concrete deposit used by the witness of C1. -/
def c1ExDeposit : Transaction :=
  ⟨.deposit, 1, 1, some (3/2), false⟩

/-- Account state after the witness deposit of C1. -/
def c1ExAfter : Account :=
  ⟨1, [(1, c1ExDeposit)], 3/2, 0, 3/2, false⟩

theorem c1_total_invariant_witness :
    (Account.new 1).balanced ∧
    (Account.new 1).apply_transaction c1ExDeposit = .ok c1ExAfter ∧
    c1ExAfter.balanced :=
  ⟨c1_total_invariant.1 1,
    by norm_num [Account.apply_transaction, Account.new, c1ExDeposit, c1ExAfter,
      Transaction.amountVal, tmInsert, tmGet],
    c1_total_invariant.2 (Account.new 1) c1ExDeposit c1ExAfter
      (c1_total_invariant.1 1)
      (by norm_num [Account.apply_transaction, Account.new, c1ExDeposit, c1ExAfter,
        Transaction.amountVal, tmInsert, tmGet])⟩

/-- Starting account of the spec's dispute→resolve round-trip example. -/
def c8Start : Account :=
  ⟨1, [], 9, 0, 9, false⟩

/-- The $1 deposit (tx = 1) of the round-trip example. -/
def c8Deposit : Transaction :=
  ⟨.deposit, 1, 1, some 1, false⟩

/-- Account after the deposit of the round-trip example. -/
def c8AfterDeposit : Account :=
  ⟨1, [(1, c8Deposit)], 10, 0, 10, false⟩

/-- Account after disputing tx 1 in the round-trip example. -/
def c8AfterDispute : Account :=
  ⟨1, [(1, ⟨.deposit, 1, 1, some 1, true⟩)], 9, 1, 10, false⟩

/-- Account after resolving tx 1 in the round-trip example. -/
def c8AfterResolve : Account :=
  ⟨1, [(1, ⟨.deposit, 1, 1, some 1, false⟩)], 10, 0, 10, false⟩

/-- C8. Dispute→Resolve round trip on a deposit: from `available=9, held=0,
total=9`, `Deposit(tx=1, amount=1)` yields `available=10, total=10`; then
`Dispute(tx=1)` yields `available=9, held=1, total=10` with tx 1 disputed;
then `Resolve(tx=1)` yields `available=10, held=0, total=10` with tx 1 no
longer disputed — exactly the pre-dispute balances. -/
theorem c8_roundtrip :
    c8Start.apply_transaction c8Deposit = .ok c8AfterDeposit ∧
    c8AfterDeposit.apply_transaction ⟨.dispute, 1, 1, none, false⟩ = .ok c8AfterDispute ∧
    (tmGet c8AfterDispute.transactions 1).map Transaction.disputed = some true ∧
    c8AfterDispute.apply_transaction ⟨.resolve, 1, 1, none, false⟩ = .ok c8AfterResolve ∧
    (tmGet c8AfterResolve.transactions 1).map Transaction.disputed = some false ∧
    c8AfterResolve.available = c8AfterDeposit.available ∧
    c8AfterResolve.held = c8AfterDeposit.held ∧
    c8AfterResolve.total = c8AfterDeposit.total := by
  refine ⟨?_, ?_, ?_, ?_, ?_, ?_, ?_, ?_⟩ <;>
    norm_num [Account.apply_transaction, c8Start, c8Deposit, c8AfterDeposit,
      c8AfterDispute, c8AfterResolve, Transaction.amountVal, tmInsert, tmGet,
      tmModify, Transaction.dispute, Transaction.resolve]

/-- C9. Rendering truncates toward zero, never rounds: the serializer equals
exact truncation of the balance to 4 fractional digits (so the emitted value
times 10^4 is an integer — never more than 4 fractional digits), and on the
spec's example 1.11223344 it produces 1.1122, not the rounded 1.1123. -/
theorem c9_truncation :
    (∀ q : ℚ, serialize_f64_to_decimal_precision q
        = (ratTrunc (q * 10 ^ DECIMAL_PRECISION) : ℚ) / 10 ^ DECIMAL_PRECISION) ∧
    serialize_f64_to_decimal_precision (111223344 / 100000000) = 11122 / 10 ^ 4 ∧
    serialize_f64_to_decimal_precision (111223344 / 100000000) ≠ 11123 / 10 ^ 4 := by
  have hpow : (0 : ℚ) < 10 ^ DECIMAL_PRECISION := by positivity
  have hmain : ∀ q : ℚ, serialize_f64_to_decimal_precision q
      = (ratTrunc (q * 10 ^ DECIMAL_PRECISION) : ℚ) / 10 ^ DECIMAL_PRECISION := by
    intro q
    unfold serialize_f64_to_decimal_precision
    dsimp only
    rcases le_or_lt 0 q with hq | hq
    · rw [ratTrunc_of_nonneg q hq]
      have h1 : (0 : ℚ) ≤ q - (⌊q⌋ : ℚ) := sub_nonneg.mpr (Int.floor_le q)
      rw [ratTrunc_of_nonneg _ (mul_nonneg h1 hpow.le),
        ratTrunc_of_nonneg _ (mul_nonneg hq hpow.le)]
      have h3 : (q - (⌊q⌋ : ℚ)) * 10 ^ DECIMAL_PRECISION
          = q * 10 ^ DECIMAL_PRECISION
            - ((⌊q⌋ * 10 ^ DECIMAL_PRECISION : ℤ) : ℚ) := by
        push_cast
        ring
      rw [h3, Int.floor_sub_int]
      push_cast
      field_simp
    · rw [ratTrunc_of_nonpos q hq.le]
      have h1 : q - (⌈q⌉ : ℚ) ≤ 0 := sub_nonpos.mpr (Int.le_ceil q)
      rw [ratTrunc_of_nonpos _ (mul_nonpos_iff.mpr (Or.inr ⟨h1, hpow.le⟩)),
        ratTrunc_of_nonpos _ (mul_nonpos_iff.mpr (Or.inr ⟨hq.le, hpow.le⟩))]
      have h3 : (q - (⌈q⌉ : ℚ)) * 10 ^ DECIMAL_PRECISION
          = q * 10 ^ DECIMAL_PRECISION
            - ((⌈q⌉ * 10 ^ DECIMAL_PRECISION : ℤ) : ℚ) := by
        push_cast
        ring
      rw [h3, Int.ceil_sub_int]
      push_cast
      field_simp
  refine ⟨hmain, ?_, ?_⟩
  · rw [hmain]
    rw [ratTrunc_of_nonneg _ (by norm_num [DECIMAL_PRECISION])]
    norm_num [DECIMAL_PRECISION]
  · rw [hmain]
    rw [ratTrunc_of_nonneg _ (by norm_num [DECIMAL_PRECISION])]
    norm_num [DECIMAL_PRECISION]

/-- Prior deposit retained under tx id 1, used by the C4 counterexample. -/
def c4ExPrior : Transaction :=
  ⟨.deposit, 1, 1, some 5, false⟩

/-- Account already retaining tx id 1, with ample funds. -/
def c4ExAcct : Account :=
  ⟨1, [(1, c4ExPrior)], 5, 0, 5, false⟩

/-- A withdrawal reusing the retained tx id 1. -/
def c4ExW : Transaction :=
  ⟨.withdrawal, 1, 1, some 1, false⟩

/-- C4 counterexample: a withdrawal with `available ≥ amount` does not always
succeed — when its transaction id is already retained, the call panics
(duplicate-id invariant violation) instead of succeeding. -/
theorem c4_counterexample :
    ¬ c4ExAcct.available < c4ExW.amountVal ∧
    c4ExAcct.apply_transaction c4ExW
      = .fault "multiple transactions with the same id" := by
  constructor <;>
    norm_num [c4ExAcct, c4ExW, c4ExPrior, Account.apply_transaction,
      Transaction.amountVal, tmInsert, tmGet]

/-- C4 (amended). For every withdrawal routed to its account: if
`available < amount` the call fails with the insufficient-funds error and the
account is returned unchanged; otherwise — provided the withdrawal's
transaction id is not already retained — the call succeeds, `available` and
`total` each decrease by the amount, `held` and `locked` are unchanged, and the
withdrawal is stored in the retained map. -/
theorem c4_withdrawal :
    ∀ (a : Account) (t : Transaction),
      t.type_ = .withdrawal → t.client = a.client →
      (a.available < t.amountVal →
        a.apply_transaction t = .err (.withdrawal a.client t.tx) a) ∧
      (¬ a.available < t.amountVal → tmGet a.transactions t.tx = none →
        a.apply_transaction t
          = .ok { a with available := a.available - t.amountVal,
                         total := a.total - t.amountVal,
                         transactions := a.transactions ++ [(t.tx, t)] } ∧
        tmGet (a.transactions ++ [(t.tx, t)]) t.tx = some t) := by
  intro a t hty hcl
  constructor
  · intro hlt
    simp [Account.apply_transaction, hty, hcl, hlt]
  · intro hnlt hfresh
    refine ⟨?_, tmGet_append_new _ _ _ hfresh⟩
    simp [Account.apply_transaction, hty, hcl, hnlt, tmInsert, hfresh]

/-- Account with `available = 2` and no retained transactions, for the C4
witness. -/
def c4WitAcct : Account :=
  ⟨1, [], 2, 0, 2, false⟩

/-- Overdrawing withdrawal (amount 5) for the C4 witness. -/
def c4WitW5 : Transaction :=
  ⟨.withdrawal, 1, 2, some 5, false⟩

/-- Affordable withdrawal (amount 1) for the C4 witness. -/
def c4WitW1 : Transaction :=
  ⟨.withdrawal, 1, 2, some 1, false⟩

theorem c4_withdrawal_witness :
    c4WitAcct.available < c4WitW5.amountVal ∧
    c4WitAcct.apply_transaction c4WitW5
      = .err (.withdrawal c4WitAcct.client c4WitW5.tx) c4WitAcct ∧
    ¬ c4WitAcct.available < c4WitW1.amountVal ∧
    c4WitAcct.apply_transaction c4WitW1
      = .ok { c4WitAcct with
              available := c4WitAcct.available - c4WitW1.amountVal,
              total := c4WitAcct.total - c4WitW1.amountVal,
              transactions := c4WitAcct.transactions ++ [(c4WitW1.tx, c4WitW1)] } ∧
    tmGet (c4WitAcct.transactions ++ [(c4WitW1.tx, c4WitW1)]) c4WitW1.tx
      = some c4WitW1 :=
  ⟨by norm_num [c4WitAcct, c4WitW5, Transaction.amountVal],
   (c4_withdrawal c4WitAcct c4WitW5 rfl rfl).1
     (by norm_num [c4WitAcct, c4WitW5, Transaction.amountVal]),
   by norm_num [c4WitAcct, c4WitW1, Transaction.amountVal],
   ((c4_withdrawal c4WitAcct c4WitW1 rfl rfl).2
     (by norm_num [c4WitAcct, c4WitW1, Transaction.amountVal]) rfl).1,
   ((c4_withdrawal c4WitAcct c4WitW1 rfl rfl).2
     (by norm_num [c4WitAcct, c4WitW1, Transaction.amountVal]) rfl).2⟩

/-- Deposit with tx id 1, used by the C7 counterexample. -/
def c7ExDep : Transaction :=
  ⟨.deposit, 1, 1, some 1, false⟩

/-- Account that already retains tx id 1, for the C7 counterexample. -/
def c7ExAcct : Account :=
  ⟨1, [(1, c7ExDep)], 1, 0, 1, false⟩

/-- C7 counterexample: a deposit routed to the correct client does not always
return Ok — re-applying a deposit whose tx id is already retained panics
(duplicate-id invariant violation). -/
theorem c7_counterexample :
    c7ExAcct.apply_transaction c7ExDep
      = .fault "multiple transactions with the same id" := by
  norm_num [c7ExAcct, c7ExDep, Account.apply_transaction, Transaction.amountVal,
    tmInsert, tmGet]

/-- C7 (amended). For every deposit routed to the correct client whose
transaction id is not already retained: the call returns Ok, `available` and
`total` increase by the amount, and the transaction is stored in the retained
map; if the amount field is absent it defaults to 0 rather than faulting, so
the deposit still succeeds and leaves `available` and `total` unchanged. -/
theorem c7_deposit :
    ∀ (a : Account) (t : Transaction),
      t.type_ = .deposit → t.client = a.client →
      tmGet a.transactions t.tx = none →
      (a.apply_transaction t
          = .ok { a with available := a.available + t.amountVal,
                         total := a.total + t.amountVal,
                         transactions := a.transactions ++ [(t.tx, t)] } ∧
       tmGet (a.transactions ++ [(t.tx, t)]) t.tx = some t) ∧
      (t.amount = none →
       a.apply_transaction t
          = .ok { a with transactions := a.transactions ++ [(t.tx, t)] }) := by
  intro a t hty hcl hfresh
  constructor
  · refine ⟨?_, tmGet_append_new _ _ _ hfresh⟩
    simp [Account.apply_transaction, hty, hcl, tmInsert, hfresh]
  · intro hnone
    have hz : t.amountVal = 0 := by simp [Transaction.amountVal, hnone]
    simp [Account.apply_transaction, hty, hcl, tmInsert, hfresh, hz]

/-- Deposit with an explicit amount, for the C7 witness. -/
def c7WitDep : Transaction :=
  ⟨.deposit, 3, 9, some 4, false⟩

/-- Deposit with the amount field absent, for the C7 witness. -/
def c7WitDepNone : Transaction :=
  ⟨.deposit, 3, 10, none, false⟩

theorem c7_deposit_witness :
    (Account.new 3).apply_transaction c7WitDep
      = .ok { Account.new 3 with
              available := (Account.new 3).available + c7WitDep.amountVal,
              total := (Account.new 3).total + c7WitDep.amountVal,
              transactions := (Account.new 3).transactions
                ++ [(c7WitDep.tx, c7WitDep)] } ∧
    c7WitDepNone.amount = none ∧
    (Account.new 3).apply_transaction c7WitDepNone
      = .ok { Account.new 3 with
              transactions := (Account.new 3).transactions
                ++ [(c7WitDepNone.tx, c7WitDepNone)] } :=
  ⟨((c7_deposit (Account.new 3) c7WitDep rfl rfl rfl).1).1, rfl,
   (c7_deposit (Account.new 3) c7WitDepNone rfl rfl rfl).2 rfl⟩

/-- Prior deposit retained under tx id 1, for the C10 counterexample. -/
def c10ExPrior : Transaction :=
  ⟨.deposit, 1, 1, some 1, false⟩

/-- Account retaining tx id 1 with nonnegative available balance. -/
def c10ExAcct : Account :=
  ⟨1, [(1, c10ExPrior)], 1, 0, 1, false⟩

/-- Negative withdrawal reusing the retained tx id 1. -/
def c10ExW : Transaction :=
  ⟨.withdrawal, 1, 1, some (-1), false⟩

/-- C10 counterexample: a negative withdrawal with `available ≥ amount` does
not always succeed — when its transaction id is already retained the call
panics instead. -/
theorem c10_counterexample :
    c10ExW.amountVal < 0 ∧
    (0 : ℚ) ≤ c10ExAcct.available ∧
    ¬ c10ExAcct.available < c10ExW.amountVal ∧
    c10ExAcct.apply_transaction c10ExW
      = .fault "multiple transactions with the same id" := by
  refine ⟨?_, ?_, ?_, ?_⟩ <;>
    norm_num [c10ExAcct, c10ExW, c10ExPrior, Account.apply_transaction,
      Transaction.amountVal, tmInsert, tmGet]

/-- C10 (amended). No sign validation is performed on amounts: a withdrawal
with a negative amount succeeds whenever `available ≥ amount` (in particular
whenever `available ≥ 0`), provided its transaction id is not already
retained, and its application increases `available` and `total` by the
absolute value of the amount — a negative withdrawal adds funds. -/
theorem c10_negative_withdrawal :
    ∀ (a : Account) (t : Transaction),
      t.type_ = .withdrawal → t.client = a.client →
      t.amountVal < 0 → t.amountVal ≤ a.available →
      tmGet a.transactions t.tx = none →
      a.apply_transaction t
        = .ok { a with available := a.available + |t.amountVal|,
                       total := a.total + |t.amountVal|,
                       transactions := a.transactions ++ [(t.tx, t)] } := by
  intro a t hty hcl hneg hle hfresh
  have hnlt : ¬ a.available < t.amountVal := not_lt.mpr hle
  have habs : |t.amountVal| = -t.amountVal := abs_of_neg hneg
  simp [Account.apply_transaction, hty, hcl, hnlt, tmInsert, hfresh, habs,
    sub_eq_add_neg]

/-- Negative withdrawal on a fresh account, for the C10 witness. -/
def c10WitW : Transaction :=
  ⟨.withdrawal, 1, 2, some (-3), false⟩

theorem c10_negative_withdrawal_witness :
    c10WitW.amountVal < 0 ∧
    c10WitW.amountVal ≤ (Account.new 1).available ∧
    (Account.new 1).apply_transaction c10WitW
      = .ok { Account.new 1 with
              available := (Account.new 1).available + |c10WitW.amountVal|,
              total := (Account.new 1).total + |c10WitW.amountVal|,
              transactions := (Account.new 1).transactions
                ++ [(c10WitW.tx, c10WitW)] } :=
  ⟨by norm_num [c10WitW, Transaction.amountVal],
   by norm_num [c10WitW, Account.new, Transaction.amountVal],
   c10_negative_withdrawal (Account.new 1) c10WitW rfl rfl
     (by norm_num [c10WitW, Transaction.amountVal])
     (by norm_num [c10WitW, Account.new, Transaction.amountVal]) rfl⟩

/-- Dispute referencing an unknown transaction on a previously unseen client,
used by the C2 counterexample. -/
def c2ExBad : Transaction :=
  ⟨.dispute, 7, 1, none, false⟩

/-- C2 counterexample: with `strict = false`, skipping a failing event does
not leave the book equal to the one built with that element removed — the
failing event's client entry is created (by `entry(..).or_insert`) before the
apply fails, so the book gains a fresh account absent from the other book. -/
theorem c2_counterexample :
    Accounts.from_transaction_iter [Except.ok c2ExBad] false
      = .ok [(7, Account.new 7)] ∧
    Accounts.from_transaction_iter [] false = .ok ([] : AccountsMap) ∧
    accGet [(7, Account.new 7)] 7 ≠ accGet ([] : AccountsMap) 7 := by
  refine ⟨?_, rfl, ?_⟩
  · norm_num [Accounts.from_transaction_iter, fromIterGo, entryOrNew, accGet,
      accInsert, Account.apply_transaction, c2ExBad, tmGet, Account.new,
      AccountError.isBusinessError]
  · simp [accGet]

/-- C2 (amended). For every input sequence element: an ingestion `Err` aborts
the build with that error regardless of the strict flag; an element whose
apply fails with a business-rule error aborts the build with that error when
`strict = true`, and when `strict = false` it is skipped — the build continues
exactly as on the remaining sequence, except that the failing event's client
entry remains created (with its state unchanged by the failed apply). -/
theorem c2_fold_policy :
    (∀ (accs : AccountsMap) (e : TransactionError)
        (rest : List (Except TransactionError Transaction)) (strict : Bool),
      fromIterGo accs (.error e :: rest) strict = .err (.transaction e)) ∧
    (∀ (accs : AccountsMap) (t : Transaction)
        (rest : List (Except TransactionError Transaction))
        (e : AccountError) (a' : Account),
      (entryOrNew accs t.client).apply_transaction t = .err e a' →
      e.isBusinessError = true →
      fromIterGo accs (.ok t :: rest) true = .err e ∧
      fromIterGo accs (.ok t :: rest) false
        = fromIterGo (accInsert accs t.client (entryOrNew accs t.client))
            rest false) := by
  constructor
  · intro accs e rest strict
    rfl
  · intro accs t rest e a' happ hbus
    have ha : a' = entryOrNew accs t.client := apply_err_eq _ _ _ _ happ
    subst ha
    constructor
    · simp [fromIterGo, happ]
    · simp [fromIterGo, happ, hbus]

/-- Overdrawing withdrawal on a fresh client, for the C2 witness. -/
def c2WitW : Transaction :=
  ⟨.withdrawal, 1, 1, some 5, false⟩

theorem c2_fold_policy_witness :
    fromIterGo [] [.error (.csv "bad record")] true
      = .err (.transaction (.csv "bad record")) ∧
    (entryOrNew [] c2WitW.client).apply_transaction c2WitW
      = .err (.withdrawal 1 1) (entryOrNew [] c2WitW.client) ∧
    (AccountError.withdrawal 1 1).isBusinessError = true ∧
    fromIterGo [] [.ok c2WitW] true = .err (.withdrawal 1 1) ∧
    fromIterGo [] [.ok c2WitW] false
      = fromIterGo (accInsert [] c2WitW.client (entryOrNew [] c2WitW.client))
          [] false :=
  ⟨c2_fold_policy.1 [] (.csv "bad record") [] true,
   by norm_num [entryOrNew, accGet, c2WitW, Account.apply_transaction,
     Account.new, Transaction.amountVal],
   rfl,
   (c2_fold_policy.2 [] c2WitW [] (.withdrawal 1 1)
     (entryOrNew [] c2WitW.client)
     (by norm_num [entryOrNew, accGet, c2WitW, Account.apply_transaction,
       Account.new, Transaction.amountVal]) rfl).1,
   (c2_fold_policy.2 [] c2WitW [] (.withdrawal 1 1)
     (entryOrNew [] c2WitW.client)
     (by norm_num [entryOrNew, accGet, c2WitW, Account.apply_transaction,
       Account.new, Transaction.amountVal]) rfl).2⟩

/-- Deposit with tx id 1 on client 1, for the C5 counterexample. -/
def c5ExD1 : Transaction :=
  ⟨.deposit, 1, 1, some 1, false⟩

/-- Deposit with the same tx id 1 but on client 2. -/
def c5ExD2 : Transaction :=
  ⟨.deposit, 2, 1, some 2, false⟩

/-- Book produced from the two same-id deposits on different clients. -/
def c5ExBook : AccountsMap :=
  [(1, ⟨1, [(1, c5ExD1)], 1, 0, 1, false⟩),
   (2, ⟨2, [(1, c5ExD2)], 2, 0, 2, false⟩)]

/-- C5 counterexample: a stream containing two funding transactions with the
same transaction id on different clients is not treated as a fault — the
retained maps are per account, so the build succeeds normally under both
strict modes. -/
theorem c5_counterexample :
    Accounts.from_transaction_iter [.ok c5ExD1, .ok c5ExD2] true = .ok c5ExBook ∧
    Accounts.from_transaction_iter [.ok c5ExD1, .ok c5ExD2] false = .ok c5ExBook := by
  constructor <;>
    norm_num [Accounts.from_transaction_iter, fromIterGo, entryOrNew, accGet,
      accInsert, Account.apply_transaction, c5ExD1, c5ExD2, c5ExBook,
      Account.new, Transaction.amountVal, tmInsert, tmGet]

/-- C5 (amended). TransactionId uniqueness is only enforced per client: a
funding transaction whose id is already retained by its own account is an
unrecoverable fault (panic) — for a deposit always, for a withdrawal whenever
the funds check passes — and such a fault propagates out of the build fold
unchanged under both strict modes, never as a recoverable error. Duplicates
across different clients are not detected at all. -/
theorem c5_duplicate_id :
    (∀ (a : Account) (t d : Transaction), t.client = a.client →
      tmGet a.transactions t.tx = some d →
      (t.type_ = .deposit →
        a.apply_transaction t = .fault "multiple transactions with the same id") ∧
      (t.type_ = .withdrawal → ¬ a.available < t.amountVal →
        a.apply_transaction t = .fault "multiple transactions with the same id")) ∧
    (∀ (accs : AccountsMap) (t : Transaction)
        (rest : List (Except TransactionError Transaction))
        (strict : Bool) (m : String),
      (entryOrNew accs t.client).apply_transaction t = .fault m →
      fromIterGo accs (.ok t :: rest) strict = .fault m) := by
  constructor
  · intro a t d hcl hdup
    constructor
    · intro hty
      simp [Account.apply_transaction, hty, hcl, tmInsert, hdup]
    · intro hty hnlt
      simp [Account.apply_transaction, hty, hcl, hnlt, tmInsert, hdup]
  · intro accs t rest strict m happ
    simp [fromIterGo, happ]

/-- Deposit with tx id 1, for the C5 witness. -/
def c5WitDep : Transaction :=
  ⟨.deposit, 1, 1, some 1, false⟩

/-- Account already retaining tx id 1, for the C5 witness. -/
def c5WitAcct : Account :=
  ⟨1, [(1, c5WitDep)], 1, 0, 1, false⟩

theorem c5_duplicate_id_witness :
    tmGet c5WitAcct.transactions c5WitDep.tx = some c5WitDep ∧
    c5WitAcct.apply_transaction c5WitDep
      = .fault "multiple transactions with the same id" ∧
    fromIterGo [(1, c5WitAcct)] [.ok c5WitDep] true
      = .fault "multiple transactions with the same id" ∧
    fromIterGo [(1, c5WitAcct)] [.ok c5WitDep] false
      = .fault "multiple transactions with the same id" :=
  ⟨rfl,
   (c5_duplicate_id.1 c5WitAcct c5WitDep c5WitDep rfl rfl).1 rfl,
   c5_duplicate_id.2 [(1, c5WitAcct)] c5WitDep [] true _
     (by norm_num [entryOrNew, accGet, c5WitAcct, c5WitDep,
       Account.apply_transaction, Transaction.amountVal, tmInsert, tmGet]),
   c5_duplicate_id.2 [(1, c5WitAcct)] c5WitDep [] false _
     (by norm_num [entryOrNew, accGet, c5WitAcct, c5WitDep,
       Account.apply_transaction, Transaction.amountVal, tmInsert, tmGet])⟩

/-- A Resolve or Chargeback referencing a retained but currently undisputed
transaction fails with the corresponding undisputed error and returns the
account unchanged. -/
theorem apply_on_undisputed (a : Account) (r : Transaction) (d : Transaction)
    (hcl : r.client = a.client) (hget : tmGet a.transactions r.tx = some d)
    (hdisp : d.disputed = false)
    (hr : r.type_ = TransactionType.resolve ∨ r.type_ = TransactionType.chargeback) :
    ∃ e, a.apply_transaction r = .err e a ∧ e.isBusinessError = true := by
  rcases hr with hrty | hrty
  · exact ⟨.resolveUndisputed a.client d.tx,
      by simp [Account.apply_transaction, hrty, hcl, hget, hdisp], rfl⟩
  · exact ⟨.chargebackUndisputed a.client d.tx,
      by simp [Account.apply_transaction, hrty, hcl, hget, hdisp], rfl⟩

/-- C3. For every chargeback routed to its account: if the referenced id is
absent the call returns the chargeback-not-found error with the account
unchanged; if present but not disputed, the chargeback-undisputed error with
the account unchanged; if present and disputed, then for a Deposit `held` and
`total` each decrease by its amount, for a Withdrawal `available` increases
and `held` decreases by its amount, and in both cases the stored transaction's
disputed flag becomes false and the account is frozen (`locked = true`). -/
theorem c3_chargeback :
    ∀ (a : Account) (t : Transaction),
      t.type_ = .chargeback → t.client = a.client →
      (tmGet a.transactions t.tx = none →
        a.apply_transaction t = .err (.chargeback a.client t.tx) a) ∧
      (∀ d, tmGet a.transactions t.tx = some d → d.disputed = false →
        a.apply_transaction t = .err (.chargebackUndisputed a.client d.tx) a) ∧
      (∀ d, tmGet a.transactions t.tx = some d → d.disputed = true →
        d.type_ = .deposit →
        a.apply_transaction t
          = .ok { a with held := a.held - d.amountVal,
                         total := a.total - d.amountVal,
                         transactions :=
                           tmModify a.transactions t.tx Transaction.resolve,
                         locked := true } ∧
        tmGet (tmModify a.transactions t.tx Transaction.resolve) t.tx
          = some d.resolve) ∧
      (∀ d, tmGet a.transactions t.tx = some d → d.disputed = true →
        d.type_ = .withdrawal →
        a.apply_transaction t
          = .ok { a with available := a.available + d.amountVal,
                         held := a.held - d.amountVal,
                         transactions :=
                           tmModify a.transactions t.tx Transaction.resolve,
                         locked := true } ∧
        tmGet (tmModify a.transactions t.tx Transaction.resolve) t.tx
          = some d.resolve) := by
  intro a t hty hcl
  refine ⟨?_, ?_, ?_, ?_⟩
  · intro hget
    simp [Account.apply_transaction, hty, hcl, hget]
  · intro d hget hdisp
    simp [Account.apply_transaction, hty, hcl, hget, hdisp]
  · intro d hget hdisp hdty
    refine ⟨?_, tmGet_tmModify_self _ _ _ _ hget⟩
    simp [Account.apply_transaction, hty, hcl, hget, hdisp, hdty, Account.freeze]
  · intro d hget hdisp hdty
    refine ⟨?_, tmGet_tmModify_self _ _ _ _ hget⟩
    simp [Account.apply_transaction, hty, hcl, hget, hdisp, hdty, Account.freeze]

/-- The disputed $1 deposit of the spec's chargeback example. -/
def c3WitDep : Transaction :=
  ⟨.deposit, 1, 1, some 1, true⟩

/-- The spec's chargeback-example account: available 8, held 2, total 10. -/
def c3WitAcct : Account :=
  ⟨1, [(1, c3WitDep)], 8, 2, 10, false⟩

/-- The chargeback referencing tx 1. -/
def c3WitCb : Transaction :=
  ⟨.chargeback, 1, 1, none, false⟩

theorem c3_chargeback_witness :
    tmGet c3WitAcct.transactions c3WitCb.tx = some c3WitDep ∧
    c3WitDep.disputed = true ∧
    c3WitAcct.apply_transaction c3WitCb
      = .ok { c3WitAcct with
              held := c3WitAcct.held - c3WitDep.amountVal,
              total := c3WitAcct.total - c3WitDep.amountVal,
              transactions :=
                tmModify c3WitAcct.transactions c3WitCb.tx Transaction.resolve,
              locked := true } ∧
    tmGet (tmModify c3WitAcct.transactions c3WitCb.tx Transaction.resolve)
        c3WitCb.tx = some c3WitDep.resolve :=
  ⟨rfl, rfl,
   ((c3_chargeback c3WitAcct c3WitCb rfl rfl).2.2.1 c3WitDep rfl rfl rfl).1,
   ((c3_chargeback c3WitAcct c3WitCb rfl rfl).2.2.1 c3WitDep rfl rfl rfl).2⟩

/-- Disputed $1 deposit retained under tx 1, for the C6 counterexample. -/
def c6ExDep : Transaction :=
  ⟨.deposit, 1, 1, some 1, true⟩

/-- Starting account of the C6 counterexample. -/
def c6ExAcct : Account :=
  ⟨1, [(1, c6ExDep)], 8, 2, 10, false⟩

/-- State after the successful chargeback of tx 1. -/
def c6ExA1 : Account :=
  ⟨1, [(1, ⟨.deposit, 1, 1, some 1, false⟩)], 8, 1, 9, true⟩

/-- State after re-disputing tx 1 on the charged-back account. -/
def c6ExA2 : Account :=
  ⟨1, [(1, ⟨.deposit, 1, 1, some 1, true⟩)], 7, 2, 9, true⟩

/-- State after resolving the re-disputed tx 1. -/
def c6ExA3 : Account :=
  ⟨1, [(1, ⟨.deposit, 1, 1, some 1, false⟩)], 8, 1, 9, true⟩

/-- State after charging back tx 1 a second time. -/
def c6ExA4 : Account :=
  ⟨1, [(1, ⟨.deposit, 1, 1, some 1, false⟩)], 7, 1, 8, true⟩

/-- C6 counterexample: after a successful chargeback of tx 1, a later Dispute
on tx 1 is accepted and re-disputes it, after which a Resolve succeeds — and a
second Chargeback of the same transaction succeeds as well (a double refund) —
so later Resolve/Chargeback events on a charged-back transaction are not
always rejected. -/
theorem c6_counterexample :
    c6ExAcct.apply_transaction ⟨.chargeback, 1, 1, none, false⟩ = .ok c6ExA1 ∧
    c6ExA1.apply_transaction ⟨.dispute, 1, 1, none, false⟩ = .ok c6ExA2 ∧
    c6ExA2.apply_transaction ⟨.resolve, 1, 1, none, false⟩ = .ok c6ExA3 ∧
    c6ExA2.apply_transaction ⟨.chargeback, 1, 1, none, false⟩ = .ok c6ExA4 := by
  refine ⟨?_, ?_, ?_, ?_⟩ <;>
    norm_num [c6ExAcct, c6ExDep, c6ExA1, c6ExA2, c6ExA3, c6ExA4,
      Account.apply_transaction, Transaction.amountVal, tmGet, tmModify,
      Transaction.dispute, Transaction.resolve, Account.freeze]

/-- C6 (amended). Immediately after a successful Chargeback referencing a
transaction, that transaction is retained undisputed, so a Resolve or
Chargeback referencing it is rejected with a business-rule error (leaving the
account unchanged) — unless an intervening Dispute re-disputes it, which the
code accepts and which re-enables Resolve and Chargeback on it. -/
theorem c6_after_chargeback :
    ∀ (a : Account) (t : Transaction) (a' : Account),
      t.type_ = .chargeback → a.apply_transaction t = .ok a' →
      ∀ r : Transaction,
        r.type_ = TransactionType.resolve ∨ r.type_ = TransactionType.chargeback →
        r.tx = t.tx → r.client = a'.client →
        ∃ e, a'.apply_transaction r = .err e a' ∧ e.isBusinessError = true := by
  intro a t a' hty happ r hr htx hcl
  simp only [Account.apply_transaction, hty] at happ
  split at happ
  · injection happ
  · split at happ
    · injection happ
    · next d heq =>
      split at happ
      · injection happ
      · split at happ
        · injection happ with h
          subst h
          refine apply_on_undisputed _ r d.resolve ?_ ?_ rfl hr
          · simpa [Account.freeze] using hcl
          · rw [htx]
            simpa [Account.freeze] using tmGet_tmModify_self _ _ _ _ heq
        · injection happ with h
          subst h
          refine apply_on_undisputed _ r d.resolve ?_ ?_ rfl hr
          · simpa [Account.freeze] using hcl
          · rw [htx]
            simpa [Account.freeze] using tmGet_tmModify_self _ _ _ _ heq
        · injection happ

/-- Disputed $3 deposit retained under tx 5, for the C6 witness. -/
def c6WitDep : Transaction :=
  ⟨.deposit, 2, 5, some 3, true⟩

/-- Starting account of the C6 witness. -/
def c6WitAcct : Account :=
  ⟨2, [(5, c6WitDep)], 10, 3, 13, false⟩

/-- Account after the witness chargeback. -/
def c6WitA1 : Account :=
  ⟨2, [(5, ⟨.deposit, 2, 5, some 3, false⟩)], 10, 0, 10, true⟩

theorem c6_after_chargeback_witness :
    c6WitAcct.apply_transaction ⟨.chargeback, 2, 5, none, false⟩ = .ok c6WitA1 ∧
    (∃ e, c6WitA1.apply_transaction ⟨.resolve, 2, 5, none, false⟩
        = .err e c6WitA1 ∧ e.isBusinessError = true) :=
  ⟨by norm_num [c6WitAcct, c6WitDep, c6WitA1, Account.apply_transaction,
     Transaction.amountVal, tmGet, tmModify, Transaction.resolve, Account.freeze],
   c6_after_chargeback c6WitAcct ⟨.chargeback, 2, 5, none, false⟩ c6WitA1 rfl
     (by norm_num [c6WitAcct, c6WitDep, c6WitA1, Account.apply_transaction,
       Transaction.amountVal, tmGet, tmModify, Transaction.resolve,
       Account.freeze])
     ⟨.resolve, 2, 5, none, false⟩ (Or.inl rfl) rfl rfl⟩

end TxEngine
